import Mathlib

/-!
Capture-to-broadcast pipeline of `server.js`.

A shallow embedding of `src/server.js`: the configuration constants read from
`process.env`, the ffmpeg argument list built in `startStreaming`, the start-up
sequence, and the two shutdown handlers (`ff.on("close")` and
`process.on("SIGINT")`), followed by the properties proved about them.

Calls into external collaborators (express, puppeteer, puppeteer-stream,
child_process) are recorded as effects in a trace; whether such a call succeeds
is chosen by the environment and is an input of the model.
-/

namespace Server

/-! ## Configuration (lines 14-21) -/

/-- The table `process.env` after `dotenv.config()`: a variable is unset or holds a string. -/
abbrev Env := String → Option String

/-- The idiom `process.env.X || d`: an unset variable and the empty string are both falsy. -/
def orDefault (v : Option String) (d : String) : String :=
  match v with
  | some s => if s = "" then d else s
  | none => d

/-- A result of `parseInt`: `NaN`, an integer that a double holds, or an infinity (a digit
string of 309 digits or more). -/
inductive JSNum where
  | nan : JSNum
  | int (i : Int) : JSNum
  | inf (negative : Bool) : JSNum
  deriving DecidableEq, Repr

/-- The Number value of a non-negative integer: the nearest double, a tie going to the even
significand; `none` stands for `Infinity`. Integers below `2^53` are their own value. -/
def toDouble (n : Nat) : Option Nat :=
  if n < 2 ^ 53 then some n
  else
    let e := (Nat.toDigits 2 n).length - 53
    let q := n / 2 ^ e
    let r := n % 2 ^ e
    let half := 2 ^ (e - 1)
    let q1 := if half < r || (r == half && q % 2 == 1) then q + 1 else q
    if q1 * 2 ^ e < 2 ^ 1024 then some (q1 * 2 ^ e) else none

/-- Code points that `parseInt` skips at the start of its input (WhiteSpace and
LineTerminator of ECMAScript). -/
def isStrWhiteSpaceChar (c : Char) : Bool :=
  c.toNat ∈ [0x9, 0xA, 0xB, 0xC, 0xD, 0x20, 0xA0, 0x1680, 0x2028, 0x2029, 0x202F, 0x205F,
    0x3000, 0xFEFF] || (0x2000 ≤ c.toNat && c.toNat ≤ 0x200A)

/-- Value of a run of decimal digits, most significant first. -/
def digitsValue (ds : List Char) : Nat :=
  ds.foldl (fun acc c => 10 * acc + (c.toNat - 48)) 0

/-- The call `parseInt(s, 10)`: skip leading white space, read an optional sign, then the
longest run of decimal digits; no digit gives `NaN`. -/
def parseInt (s : String) : JSNum :=
  let cs := s.data.dropWhile isStrWhiteSpaceChar
  let signed : Bool × List Char :=
    match cs with
    | '-' :: r => (true, r)
    | '+' :: r => (false, r)
    | _ => (false, cs)
  let ds := signed.2.takeWhile Char.isDigit
  if ds.isEmpty then JSNum.nan
  else
    match toDouble (digitsValue ds) with
    | some v => if signed.1 then JSNum.int (-(v : Int)) else JSNum.int v
    | none => JSNum.inf signed.1

/-- The significand `s` and exponent `p` of a decimal `s * 10 ^ p` of `k` digits whose Number
value is `v`, if there is one; of two such the nearer to `v`, the even one on a tie. -/
def shortestWith (v k : Nat) : Option (Nat × Nat) :=
  let p := (Nat.toDigits 10 v).length - k
  let lo := v / 10 ^ p
  let okLo := toDouble (lo * 10 ^ p) == some v
  let okHi := toDouble ((lo + 1) * 10 ^ p) == some v
  let dLo := v - lo * 10 ^ p
  let dHi := (lo + 1) * 10 ^ p - v
  if okLo && okHi then
    (if dLo < dHi || (dLo == dHi && lo % 2 == 0) then some (lo, p) else some (lo + 1, p))
  else if okLo then some (lo, p)
  else if okHi then some (lo + 1, p)
  else none

/-- The decimal with the fewest digits whose Number value is `v` (17 digits always do). -/
def shortest (v : Nat) : Nat × Nat :=
  ((List.range 17).findSome? (fun i => shortestWith v (i + 1))).getD (v, 0)

/-- A digit list without the zeros at its end. -/
def dropTrailingZeros (ds : List Char) : List Char :=
  (ds.reverse.dropWhile (fun c => c == '0')).reverse

/-- The exponent form `d.ddde+x` of `s * 10 ^ p`. -/
def expChars (s p : Nat) : List Char :=
  match Nat.toDigits 10 s with
  | [] => []
  | d :: rest =>
    d :: ((if (dropTrailingZeros rest).isEmpty then [] else '.' :: dropTrailingZeros rest) ++
      'e' :: '+' :: Nat.toDigits 10 (p + rest.length))

/-- The conversion `String(v)` of a non-negative integer Number: plain digits below `10^21`,
exponent form with the shortest significand from there on. -/
def magString (v : Nat) : String :=
  if v < 10 ^ 21 then Nat.repr v
  else String.mk (expChars (shortest v).1 (shortest v).2)

/-- The conversion `String(x)` of a `parseInt` result. -/
def JSNum.toJSString : JSNum → String
  | JSNum.nan => "NaN"
  | JSNum.inf false => "Infinity"
  | JSNum.inf true => "-Infinity"
  | JSNum.int i => (if i < 0 then "-" else "") ++ magString i.natAbs

/-- Line 14: `process.env.PORT || 3000`, as it is printed in a template string. -/
def PORT (env : Env) : String := orDefault (env "PORT") "3000"

/-- Line 15. -/
def WIDTH (env : Env) : JSNum := parseInt (orDefault (env "WIDTH") "1920")

/-- Line 16. -/
def HEIGHT (env : Env) : JSNum := parseInt (orDefault (env "HEIGHT") "1080")

/-- Line 17. -/
def FPS (env : Env) : JSNum := parseInt (orDefault (env "FPS") "30")

/-- Line 19: `process.env.YT_RTMP || ""`. -/
def YT_RTMP (env : Env) : String := orDefault (env "YT_RTMP") ""

/-- Line 20: `process.env.DRIVE_AUDIO || ""`. -/
def DRIVE_AUDIO (env : Env) : String := orDefault (env "DRIVE_AUDIO") ""

/-- Line 88: `process.env.X264_PRESET || "veryfast"`. -/
def X264_PRESET (env : Env) : String := orDefault (env "X264_PRESET") "veryfast"

/-- Line 90: `process.env.VBITRATE || "4500k"`. -/
def VBITRATE (env : Env) : String := orDefault (env "VBITRATE") "4500k"

/-- Line 97: `process.env.ABITRATE || "160k"`. -/
def ABITRATE (env : Env) : String := orDefault (env "ABITRATE") "160k"

/-! ## The ffmpeg argument list (lines 71-106) -/

/-- Prefix of the Drive download URL of line 79. -/
def driveUrlPrefix : String := "https://drive.google.com/uc?export=download&id="

/-- Lines 77-79: `audioUrl` stays `null` unless ` DRIVE_AUDIO` is truthy (non-empty). -/
def audioUrl (env : Env) : Option String :=
  if DRIVE_AUDIO env = "" then none else some (driveUrlPrefix ++ DRIVE_AUDIO env)

/-- Line 74: input 0, the video pipe. -/
def inputArgs0 : List String := ["-re", "-f", "webm", "-i", "pipe:0"]

/-- Line 80: input 1, pushed only inside `if ( DRIVE_AUDIO)`. -/
def inputArgs1 (env : Env) : List String :=
  match audioUrl env with
  | some u => ["-re", "-i", u]
  | none => []

/-- Lines 84-91: video mapping and encoding. -/
def videoArgs (env : Env) : List String :=
  ["-map", "0:v:0", "-c:v", "libx264", "-pix_fmt", "yuv420p",
   "-preset", X264_PRESET env, "-r", (FPS env).toJSString, "-b:v", VBITRATE env]

/-- Lines 93-103: `if (audioUrl)` tests truthiness, so `null` and the empty string both
take the `else` branch. -/
def audioArgs (env : Env) : List String :=
  match audioUrl env with
  | some u =>
    if u = "" then ["-an"]
    else ["-map", "1:a:0", "-c:a", "aac", "-b:a", ABITRATE env, "-ar", "44100", "-ac", "2"]
  | none => ["-an"]

/-- Line 106: output format and endpoint. -/
def outputArgs (env : Env) : List String := ["-f", "flv", YT_RTMP env]

/-- The array `ffArgs` handed to `spawn`, in push order. -/
def ffArgs (env : Env) : List String :=
  inputArgs0 ++ inputArgs1 env ++ videoArgs env ++ audioArgs env ++ outputArgs env

/-- The arguments that follow each occurrence of `tok`, in order; `none` when `tok` is the
last element. -/
def argsAfter (tok : String) : List String → List (Option String)
  | [] => []
  | [a] => if a = tok then [none] else []
  | a :: b :: rest =>
    if a = tok then some b :: argsAfter tok (b :: rest) else argsAfter tok (b :: rest)

/-- The directive `a b` occurs in the list: `a` immediately followed by `b`. -/
def hasPair (a b : String) : List String → Bool
  | [] => false
  | [_] => false
  | x :: y :: rest => (x = a && y = b) || hasPair a b (y :: rest)

/-! ## Effects, statements and their execution -/

/-- A call the program makes into the runtime or into one of its collaborators. -/
inductive Effect where
  /-- Line 24: `console.error`. -/
  | consoleError (msg : String)
  /-- The call `console.log`, with the fixed text of the message. -/
  | consoleLog (msg : String)
  /-- The call `process.exit(status)`. -/
  | processExit (status : Int)
  /-- Lines 28-30: `express()`, the static route and `/health`. -/
  | express
  /-- Line 32: `app.listen( PORT, ...)`. -/
  | listen (port : String)
  /-- Line 39: `puppeteer.launch` with its `args`. -/
  | launch (args : List String)
  /-- Line 52: `browser.newPage()`. -/
  | newPage
  /-- Line 64: `page.goto` of the page at this address (the query string is left out). -/
  | goto (address : String)
  /-- Line 65: `page.waitForTimeout(ms)`. -/
  | waitForTimeout (ms : Nat)
  /-- Line 68: `getStream(page, ...)` at this frame rate. -/
  | getStream (fps : JSNum)
  /-- Line 109: `spawn(cmd, args, ...)`. -/
  | spawn (cmd : String) (args : List String)
  /-- Line 112: `ff.on("close", ...)`. -/
  | onClose
  /-- Line 119: `stream.pipe(ff.stdin)`. -/
  | pipe
  /-- Line 122: `process.on("SIGINT", ...)`. -/
  | onSigint
  /-- Line 124: `stream.destroy()`. -/
  | streamDestroy
  /-- Line 125: `ff.kill(signal)`. -/
  | ffKill (signal : String)
  /-- Lines 114 and 126: `browser.close()`. -/
  | browserClose
  /-- Line 127: `server.close()`. -/
  | serverClose
  deriving DecidableEq, Repr

/-- The statement forms that occur in `server.js`. -/
inductive Stmt where
  /-- A bare call; when it throws (or the awaited promise rejects) the error propagates. -/
  | call (e : Effect) (throws : Bool)
  /-- The form `try { call } catch (_) {}`: an error is swallowed. -/
  | tryCall (e : Effect) (throws : Bool)
  /-- The call `process.exit(status)`, which does not return. -/
  | exit (status : Int)
  deriving DecidableEq, Repr

/-- How the execution of a statement list ends. -/
inductive Outcome where
  | completed
  | threw
  | exited (status : Int)
  deriving DecidableEq, Repr

/-- Sequential execution of a statement list: the calls made, in order, and how it ends.
An uncaught error and `process.exit` both abandon the remaining statements. -/
def exec : List Stmt → List Effect × Outcome
  | [] => ([], Outcome.completed)
  | Stmt.call e throws :: rest =>
    if throws then ([e], Outcome.threw) else ((e :: (exec rest).1), (exec rest).2)
  | Stmt.tryCall e _ :: rest => ((e :: (exec rest).1), (exec rest).2)
  | Stmt.exit status :: _ => ([Effect.processExit status], Outcome.exited status)

/-! ## Start-up (lines 23-110) -/

/-- Whether each start-up call fails; chosen by the environment. A failing awaited call is a
rejected promise. For `spawn` there are two ways to fail: it throws on the spot (an argument it
refuses), or it returns a child that cannot be started (no `ffmpeg` to run) and reports that
through the `error` event of the child afterwards. -/
structure World where
  listenFails : Bool
  launchFails : Bool
  newPageFails : Bool
  gotoFails : Bool
  waitFails : Bool
  getStreamFails : Bool
  spawnThrows : Bool
  spawnFails : Bool
  deriving DecidableEq, Repr

/-- Text of the message of line 24. -/
def missingEndpointMessage : String := "[ERROR] YT_RTMP not set in environment. Exiting."

/-- Lines 23-32, the module body after the constants: the endpoint check, then the HTTP
surface. -/
def topLevel (env : Env) (w : World) : List Stmt :=
  (if YT_RTMP env = "" then
      [Stmt.call (Effect.consoleError missingEndpointMessage) false, Stmt.exit 1]
    else []) ++
  [Stmt.call Effect.express false, Stmt.call (Effect.listen (PORT env)) w.listenFails]

/-- Lines 41-48: the browser arguments. -/
def launchArgs (env : Env) : List String :=
  ["--window-size=" ++ (WIDTH env).toJSString ++ "," ++ (HEIGHT env).toJSString,
   "--no-sandbox", "--disable-setuid-sandbox", "--disable-gpu",
   "--autoplay-policy=no-user-gesture-required", "--mute-audio"]

/-- Lines 38-122, the body of `startStreaming` up to the registration of the interrupt
handler. Each awaited call is a call that may fail; none of them is inside a `try`. A child
that cannot be started does not stop this sequence: `spawn` has returned, and lines 112-122
run before the `error` event of the child is emitted. -/
def startStreaming (env : Env) (w : World) : List Stmt :=
  [Stmt.call (Effect.consoleLog "[STREAM] Launching headless browser...") false,
   Stmt.call (Effect.launch (launchArgs env)) w.launchFails,
   Stmt.call Effect.newPage w.newPageFails,
   Stmt.call (Effect.consoleLog "[PAGE] Loading") false,
   Stmt.call (Effect.goto ("http://localhost:" ++ PORT env ++ "/index.html")) w.gotoFails,
   Stmt.call (Effect.waitForTimeout 1200) w.waitFails,
   Stmt.call (Effect.consoleLog "[CAPTURE] Starting Puppeteer capture (video only)...") false,
   Stmt.call (Effect.getStream (FPS env)) w.getStreamFails,
   Stmt.call (Effect.consoleLog ("[FFMPEG] ffmpeg " ++ " ".intercalate (ffArgs env))) false,
   Stmt.call (Effect.spawn "ffmpeg" (ffArgs env)) w.spawnThrows,
   Stmt.call Effect.onClose false,
   Stmt.call Effect.pipe false,
   Stmt.call Effect.onSigint false]

/-- Lines 32-35: the callback of `app.listen`; `startStreaming()` is called without `await`
and without a rejection handler. -/
def listenCallback (env : Env) (w : World) : List Stmt :=
  Stmt.call (Effect.consoleLog ("[HTTP] Frontend serving on http://localhost:" ++ PORT env)) false ::
    startStreaming env w

/-! ## The running program: handlers and events (lines 112-129) -/

/-- A handler suspended at its `await browser.close()`. -/
inductive Pending where
  /-- The `close` handler, waiting at line 114 with the exit code it was given. -/
  | closeHandler (code : Option Int)
  /-- The interrupt handler, waiting at line 126. -/
  | sigintHandler
  deriving DecidableEq, Repr

/-- A failure that no code of the program handles. The runtime reports it and ends the
process with status 1 (for a rejection: Node 15 and later). -/
inductive Fatal where
  /-- A promise of an `async` function of the program was rejected. -/
  | unhandledRejection
  /-- An `error` event without a listener (the HTTP server, the transcoder child). -/
  | uncaughtError
  deriving DecidableEq, Repr

/-- State of a run. -/
structure State where
  /-- Calls made so far, oldest first. -/
  trace : List Effect
  /-- Status passed to `process.exit`, or the status of a default signal exit. -/
  exited : Option Int
  /-- Whether the program is streaming: `startStreaming` reached its end with the transcoder
  started, both handlers are registered and the process is there to run them. -/
  streaming : Bool
  /-- The unhandled failure on which the runtime ended the process, if any. -/
  fatal : Option Fatal
  /-- The suspended handlers, oldest first. -/
  pending : List Pending
  deriving DecidableEq, Repr

/-- The status with which the process has ended, if it has: the argument of `process.exit`
(or the default signal status), or 1 when the runtime ended it on an unhandled failure. -/
def exitStatus (s : State) : Option Int :=
  match s.exited with
  | some status => some status
  | none => if s.fatal.isSome then some 1 else none

/-- The expression `code || 0` of line 115: `null` and `0` are falsy. -/
def orZero (code : Option Int) : Int :=
  match code with
  | some c => if c = 0 then 0 else c
  | none => 0

/-- Lines 113-114: the `close` handler up to its `await`. -/
def closeHandlerHead : List Stmt :=
  [Stmt.call (Effect.consoleLog "[FFMPEG] exited with code") false,
   Stmt.tryCall Effect.browserClose false]

/-- Lines 123-126: the interrupt handler up to its `await`. -/
def sigintHandlerHead (destroyThrows killThrows : Bool) : List Stmt :=
  [Stmt.call (Effect.consoleLog "[SYS] Shutting down...") false,
   Stmt.tryCall Effect.streamDestroy destroyThrows,
   Stmt.tryCall (Effect.ffKill "SIGINT") killThrows,
   Stmt.tryCall Effect.browserClose false]

/-- What a suspended handler runs once its `browser.close()` promise settles. The `await`
sits inside `try { ... } catch (_) {}`, so a rejection resumes at the same place as a
fulfilment: line 115 for the `close` handler, lines 127-128 for the interrupt handler.
The call `server.close()` of line 127 is outside any `try`: should it throw, line 128 is not
reached. -/
def resume (serverCloseThrows : Bool) : Pending → List Stmt
  | Pending.closeHandler code => [Stmt.exit (orZero code)]
  | Pending.sigintHandler => [Stmt.call Effect.serverClose serverCloseThrows, Stmt.exit 0]

/-- What can happen to the running program. -/
inductive Event where
  /-- The transcoder emits `close` with its exit code (`null` when a signal ended it). -/
  | ffClose (code : Option Int)
  /-- An interrupt is delivered; the flags say whether lines 124 and 125 throw. -/
  | sigint (destroyThrows killThrows : Bool)
  /-- The promise of the `i`-th suspended handler settles, rejected or fulfilled, and the
  calls that the handler goes on to make return. -/
  | settle (i : Nat) (isRejected : Bool)
  /-- The promise of the `i`-th suspended handler settles, and the `server.close()` that the
  handler goes on to call throws. -/
  | settleThrowing (i : Nat) (isRejected : Bool)
  deriving DecidableEq, Repr

/-- Record the execution of `stmts` in the state; a completed handler head suspends as
`next`. -/
def runStmts (s : State) (stmts : List Stmt) (next : Option Pending) : State :=
  match (exec stmts).2 with
  | Outcome.completed =>
    { s with trace := s.trace ++ (exec stmts).1,
             pending := match next with
               | some p => s.pending ++ [p]
               | none => s.pending }
  | Outcome.threw =>
    { s with trace := s.trace ++ (exec stmts).1, streaming := false, pending := [],
             fatal := some Fatal.unhandledRejection }
  | Outcome.exited status => { s with trace := s.trace ++ (exec stmts).1, exited := some status }

/-- One event. After the process has exited nothing happens any more, and neither after the
runtime has ended it on an unhandled failure. Before the handlers are registered an interrupt
has Node's default effect, an exit with status 128 + 2, and a `close` event has no listener. -/
def step (s : State) (ev : Event) : State :=
  if s.exited.isSome then s
  else
    match ev with
    | Event.ffClose code =>
      if s.streaming then runStmts s closeHandlerHead (some (Pending.closeHandler code)) else s
    | Event.sigint d k =>
      if s.streaming then runStmts s (sigintHandlerHead d k) (some Pending.sigintHandler)
      else if s.fatal.isSome then s
      else { s with exited := some 130 }
    | Event.settle i _ =>
      match s.pending.get? i with
      | some p => runStmts { s with pending := s.pending.eraseIdx i } (resume false p) none
      | none => s
    | Event.settleThrowing i _ =>
      match s.pending.get? i with
      | some p => runStmts { s with pending := s.pending.eraseIdx i } (resume true p) none
      | none => s

/-- A sequence of events, oldest first. -/
def run (s : State) (evs : List Event) : State := evs.foldl step s

/-- The state before the module body runs. -/
def initial : State :=
  { trace := [], exited := none, streaming := false, fatal := none, pending := [] }

/-- The module body followed, when the server is listening, by the `listen` callback. A server
that cannot listen ends the run there. A rejected `startStreaming()` has no handler. When
`startStreaming` reaches its end, the program is streaming, unless the child could not be
started: its `error` event has no listener and the runtime ends the process before any other
event is handled. -/
def main (env : Env) (w : World) : State :=
  match (exec (topLevel env w)).2 with
  | Outcome.exited status =>
    { initial with trace := (exec (topLevel env w)).1, exited := some status }
  | Outcome.threw =>
    { initial with trace := (exec (topLevel env w)).1, fatal := some Fatal.uncaughtError }
  | Outcome.completed =>
    match (exec (listenCallback env w)).2 with
    | Outcome.completed =>
      if w.spawnFails then
        { initial with trace := (exec (topLevel env w)).1 ++ (exec (listenCallback env w)).1,
                       fatal := some Fatal.uncaughtError }
      else
        { initial with trace := (exec (topLevel env w)).1 ++ (exec (listenCallback env w)).1,
                       streaming := true }
    | Outcome.threw =>
      { initial with trace := (exec (topLevel env w)).1 ++ (exec (listenCallback env w)).1,
                     fatal := some Fatal.unhandledRejection }
    | Outcome.exited status =>
      { initial with trace := (exec (topLevel env w)).1 ++ (exec (listenCallback env w)).1,
                     exited := some status }

/-- The teardown calls of a trace, in order. -/
def teardownActions (t : List Effect) : List Effect :=
  t.filter (fun e =>
    match e with
    | Effect.streamDestroy => true
    | Effect.ffKill _ => true
    | Effect.browserClose => true
    | Effect.serverClose => true
    | _ => false)

/-- Number of shutdown triggers (transcoder `close`, interrupt) in an event sequence. -/
def triggers (evs : List Event) : Nat :=
  (evs.filter (fun ev =>
    match ev with
    | Event.ffClose _ => true
    | Event.sigint _ _ => true
    | Event.settle _ _ => false
    | Event.settleThrowing _ _ => false)).length

/-- Whether an event is a shutdown trigger. -/
def isTrigger : Event → Bool
  | Event.ffClose _ => true
  | Event.sigint _ _ => true
  | Event.settle _ _ => false
  | Event.settleThrowing _ _ => false

/-- The calls that the handlers started by these triggers make up to their `await`. -/
def triggerCalls : List Event → List Effect
  | [] => []
  | Event.ffClose _ :: rest => (exec closeHandlerHead).1 ++ triggerCalls rest
  | Event.sigint d k :: rest => (exec (sigintHandlerHead d k)).1 ++ triggerCalls rest
  | Event.settle _ _ :: rest => triggerCalls rest
  | Event.settleThrowing _ _ :: rest => triggerCalls rest

/-- The handlers that these triggers leave suspended. -/
def triggerPending : List Event → List Pending
  | [] => []
  | Event.ffClose code :: rest => Pending.closeHandler code :: triggerPending rest
  | Event.sigint _ _ :: rest => Pending.sigintHandler :: triggerPending rest
  | Event.settle _ _ :: rest => triggerPending rest
  | Event.settleThrowing _ _ :: rest => triggerPending rest

/-- A world in which every start-up call succeeds. -/
def okWorld : World :=
  { listenFails := false, launchFails := false, newPageFails := false, gotoFails := false,
    waitFails := false, getStreamFails := false, spawnThrows := false, spawnFails := false }

/-- The configuration of the first scenario: endpoint set, no secondary audio. -/
def envVideoOnly : Env := fun k =>
  if k = "YT_RTMP" then some "rtmp://host/app/key" else none

/-- The configuration of the second scenario: endpoint set, audio `asset123`. -/
def envWithAudio : Env := fun k =>
  if k = "YT_RTMP" then some "rtmp://host/app/key"
  else if k = "DRIVE_AUDIO" then some "asset123" else none

/-- A configuration whose video bitrate string is the token `-i`. -/
def envBitrateDashI : Env := fun k =>
  if k = "YT_RTMP" then some "rtmp://host/app/key"
  else if k = "DRIVE_AUDIO" then some "asset123"
  else if k = "VBITRATE" then some "-i" else none

/-- A configuration with audio whose video bitrate string is the token `-an`. -/
def envBitrateDashAn : Env := fun k =>
  if k = "YT_RTMP" then some "rtmp://host/app/key"
  else if k = "DRIVE_AUDIO" then some "asset123"
  else if k = "VBITRATE" then some "-an" else none

/-- A configuration without audio whose preset string is the token `-ac`. -/
def envPresetDashAc : Env := fun k =>
  if k = "YT_RTMP" then some "rtmp://host/app/key"
  else if k = "X264_PRESET" then some "-ac" else none

/-- The calls that bring a component up: the HTTP server, the browser, the capture, the
transcoder. -/
def startsComponent : Effect → Bool
  | Effect.listen _ => true
  | Effect.launch _ => true
  | Effect.getStream _ => true
  | Effect.spawn _ _ => true
  | _ => false

/-- A trace without its termination requests to the transcoder. -/
def withoutKill (t : List Effect) : List Effect :=
  t.filter (fun e =>
    match e with
    | Effect.ffKill _ => false
    | _ => true)

/-- The call a statement makes. -/
def Stmt.effect : Stmt → Effect
  | Stmt.call e _ => e
  | Stmt.tryCall e _ => e
  | Stmt.exit status => Effect.processExit status

/-- A world in which loading the page fails, everything before it having succeeded. -/
def gotoFailsWorld : World := { okWorld with gotoFails := true }

/-- A world in which `ffmpeg` cannot be started, everything before it having succeeded. -/
def spawnFailsWorld : World := { okWorld with spawnFails := true }

/-! ## Facts about the rendering of numbers -/

theorem digitChar_isDigit : ∀ d, d < 10 → (Nat.digitChar d).isDigit = true := by
  decide

theorem toDigitsCore_isDigit (fuel : Nat) :
    ∀ (n : Nat) (ds : List Char), (∀ c ∈ ds, c.isDigit = true) →
      ∀ c ∈ Nat.toDigitsCore 10 fuel n ds, c.isDigit = true := by
  induction fuel with
  | zero => intro n ds h c hc; exact h c (by simpa [Nat.toDigitsCore] using hc)
  | succ k ih =>
    intro n ds h c hc
    have hd : (Nat.digitChar (n % 10)).isDigit = true :=
      digitChar_isDigit _ (Nat.mod_lt _ (by decide))
    have hcons : ∀ x ∈ Nat.digitChar (n % 10) :: ds, x.isDigit = true := by
      intro x hx
      rcases List.mem_cons.mp hx with rfl | hx
      · exact hd
      · exact h x hx
    simp only [Nat.toDigitsCore] at hc
    split at hc
    · exact hcons c hc
    · exact ih _ _ hcons c hc

theorem natRepr_isDigit (n : Nat) : ∀ c ∈ (Nat.repr n).data, c.isDigit = true := by
  intro c hc
  exact toDigitsCore_isDigit _ n [] (by simp) c (by simpa [Nat.repr, Nat.toDigits] using hc)

/-- The rendering of a magnitude starts with a digit. -/
theorem magString_head (v : Nat) (c : Char) (rest : List Char)
    (h : (magString v).data = c :: rest) : c.isDigit = true := by
  unfold magString at h
  split at h
  · exact natRepr_isDigit v c (by rw [h]; exact List.mem_cons_self _ _)
  · simp only [expChars] at h
    split at h
    · exact absurd h (by simp)
    · rename_i d ds hd
      have hc : c = d := by
        have := congrArg List.head? h
        simpa using this.symm
      have hmem : d ∈ Nat.toDigits 10 (shortest v).1 := by
        rw [hd]; exact List.mem_cons_self _ _
      rw [hc]
      exact toDigitsCore_isDigit _ _ [] (by simp) d (by simpa [Nat.toDigits] using hmem)

/-- In a rendered number a leading `-` is followed by a digit or by the `I` of `Infinity`. -/
theorem toJSString_after_dash (x : JSNum) (c : Char) (rest : List Char)
    (h : x.toJSString.data = '-' :: c :: rest) : c.isDigit = true ∨ c = 'I' := by
  cases x with
  | nan =>
    have h2 := congrArg List.head? h
    simp [JSNum.toJSString] at h2
  | inf negative =>
    cases negative with
    | false =>
      have h2 := congrArg List.head? h
      simp [JSNum.toJSString] at h2
    | true =>
      have h2 := congrArg (fun l => l.tail.head?) h
      simp [JSNum.toJSString] at h2
      exact Or.inr h2.symm
  | int i =>
    simp only [JSNum.toJSString, String.data_append] at h
    by_cases hi : i < 0
    · simp only [hi, if_true] at h
      have h2 : (magString i.natAbs).data = c :: rest := by
        have : ("-".data ++ (magString i.natAbs).data) = '-' :: (magString i.natAbs).data := rfl
        rw [this] at h
        exact List.tail_eq_of_cons_eq h
      exact Or.inl (magString_head _ c rest h2)
    · simp only [hi, if_false] at h
      have h2 : (magString i.natAbs).data = '-' :: c :: rest := by
        have : ("".data ++ (magString i.natAbs).data) = (magString i.natAbs).data := rfl
        rw [this] at h
        exact h
      exact absurd (magString_head _ _ _ h2) (by decide)

/-- A word that starts with `-` and then a letter other than `I` is not a rendered number. -/
theorem toJSString_ne (x : JSNum) (t : String) (c : Char) (rest : List Char)
    (ht : t.data = '-' :: c :: rest) (hbad : ¬ (c.isDigit = true ∨ c = 'I')) :
    x.toJSString ≠ t := by
  intro h
  exact hbad (toJSString_after_dash x c rest (h ▸ ht))

/-- The Drive URL starts with `h`, so it differs from every string that does not. -/
theorem driveUrl_ne (s t : String) (ht : t.data.head? ≠ some 'h') : driveUrlPrefix ++ s ≠ t := by
  intro h
  apply ht
  rw [← h, String.data_append]
  rfl

theorem driveUrl_ne_empty (s : String) : driveUrlPrefix ++ s ≠ "" :=
  driveUrl_ne s "" (by decide)

theorem audioUrl_of_ne (env : Env) (h : DRIVE_AUDIO env ≠ "") :
    audioUrl env = some (driveUrlPrefix ++ DRIVE_AUDIO env) := by
  simp [audioUrl, h]

theorem audioUrl_of_eq (env : Env) (h : DRIVE_AUDIO env = "") : audioUrl env = none := by
  simp [audioUrl, h]

/-- The argument list when a secondary audio identifier is configured. -/
theorem ffArgs_of_audio (env : Env) (h : DRIVE_AUDIO env ≠ "") :
    ffArgs env =
      ["-re", "-f", "webm", "-i", "pipe:0", "-re", "-i", driveUrlPrefix ++ DRIVE_AUDIO env,
       "-map", "0:v:0", "-c:v", "libx264", "-pix_fmt", "yuv420p", "-preset", X264_PRESET env,
       "-r", (FPS env).toJSString, "-b:v", VBITRATE env,
       "-map", "1:a:0", "-c:a", "aac", "-b:a", ABITRATE env, "-ar", "44100", "-ac", "2",
       "-f", "flv", YT_RTMP env] := by
  simp [ffArgs, inputArgs0, inputArgs1, videoArgs, audioArgs, outputArgs, audioUrl_of_ne env h,
    driveUrl_ne_empty]

/-- The argument list when no secondary audio identifier is configured. -/
theorem ffArgs_of_no_audio (env : Env) (h : DRIVE_AUDIO env = "") :
    ffArgs env =
      ["-re", "-f", "webm", "-i", "pipe:0",
       "-map", "0:v:0", "-c:v", "libx264", "-pix_fmt", "yuv420p", "-preset", X264_PRESET env,
       "-r", (FPS env).toJSString, "-b:v", VBITRATE env, "-an", "-f", "flv", YT_RTMP env] := by
  simp [ffArgs, inputArgs0, inputArgs1, videoArgs, audioArgs, outputArgs, audioUrl_of_eq env h]

/-- C1, as stated, fails: with the video bitrate string `-i` and audio `asset123` the argument
list holds three `-i` tokens, not two. -/
theorem ffArgs_three_dash_i_tokens :
    YT_RTMP envBitrateDashI ≠ "" ∧ DRIVE_AUDIO envBitrateDashI = "asset123" ∧
      (ffArgs envBitrateDashI).count "-i" = 3 ∧
      argsAfter "-i" (ffArgs envBitrateDashI) =
        [some "pipe:0", some "https://drive.google.com/uc?export=download&id=asset123",
         some "-map"] := by
  decide

/-- The tokens `-i` and the mapping directives of the list built with audio. -/
theorem audioList_dash_i (P F V A E U : String) (hp : P ≠ "-i") (hf : F ≠ "-i")
    (hv : V ≠ "-i") (ha : A ≠ "-i") (he : E ≠ "-i") (hu : U ≠ "-i") :
    List.count "-i"
        ["-re", "-f", "webm", "-i", "pipe:0", "-re", "-i", U,
         "-map", "0:v:0", "-c:v", "libx264", "-pix_fmt", "yuv420p", "-preset", P,
         "-r", F, "-b:v", V,
         "-map", "1:a:0", "-c:a", "aac", "-b:a", A, "-ar", "44100", "-ac", "2",
         "-f", "flv", E] = 2 ∧
    argsAfter "-i"
        ["-re", "-f", "webm", "-i", "pipe:0", "-re", "-i", U,
         "-map", "0:v:0", "-c:v", "libx264", "-pix_fmt", "yuv420p", "-preset", P,
         "-r", F, "-b:v", V,
         "-map", "1:a:0", "-c:a", "aac", "-b:a", A, "-ar", "44100", "-ac", "2",
         "-f", "flv", E] = [some "pipe:0", some U] := by
  constructor
  · simp [List.count_cons, hp, hv, he, ha, hf, hu]
  · simp [argsAfter, hp, hv, he, ha, hf, hu]

theorem audioList_maps (P F V A E U : String) :
    hasPair "-map" "0:v:0"
        ["-re", "-f", "webm", "-i", "pipe:0", "-re", "-i", U,
         "-map", "0:v:0", "-c:v", "libx264", "-pix_fmt", "yuv420p", "-preset", P,
         "-r", F, "-b:v", V,
         "-map", "1:a:0", "-c:a", "aac", "-b:a", A, "-ar", "44100", "-ac", "2",
         "-f", "flv", E] = true ∧
    hasPair "-map" "1:a:0"
        ["-re", "-f", "webm", "-i", "pipe:0", "-re", "-i", U,
         "-map", "0:v:0", "-c:v", "libx264", "-pix_fmt", "yuv420p", "-preset", P,
         "-r", F, "-b:v", V,
         "-map", "1:a:0", "-c:a", "aac", "-b:a", A, "-ar", "44100", "-ac", "2",
         "-f", "flv", E] = true := by
  constructor <;> simp [hasPair]

/-- The tokens `-i` and the mapping directives of the list built without audio. -/
theorem videoList_dash_i (P F V E : String) (hp : P ≠ "-i") (hf : F ≠ "-i")
    (hv : V ≠ "-i") (he : E ≠ "-i") :
    List.count "-i"
        ["-re", "-f", "webm", "-i", "pipe:0",
         "-map", "0:v:0", "-c:v", "libx264", "-pix_fmt", "yuv420p", "-preset", P,
         "-r", F, "-b:v", V, "-an", "-f", "flv", E] = 1 ∧
    argsAfter "-i"
        ["-re", "-f", "webm", "-i", "pipe:0",
         "-map", "0:v:0", "-c:v", "libx264", "-pix_fmt", "yuv420p", "-preset", P,
         "-r", F, "-b:v", V, "-an", "-f", "flv", E] = [some "pipe:0"] := by
  constructor
  · simp [List.count_cons, hp, hv, he, hf]
  · simp [argsAfter, hp, hv, he, hf]

theorem videoList_maps (P F V E : String) :
    hasPair "-map" "0:v:0"
        ["-re", "-f", "webm", "-i", "pipe:0",
         "-map", "0:v:0", "-c:v", "libx264", "-pix_fmt", "yuv420p", "-preset", P,
         "-r", F, "-b:v", V, "-an", "-f", "flv", E] = true ∧
    hasPair "-map" "1:a:0"
        ["-re", "-f", "webm", "-i", "pipe:0",
         "-map", "0:v:0", "-c:v", "libx264", "-pix_fmt", "yuv420p", "-preset", P,
         "-r", F, "-b:v", V, "-an", "-f", "flv", E] = false := by
  constructor <;> simp [hasPair]

/-- C1, amended: for every configuration with a non-empty endpoint whose preset, video bitrate
and endpoint strings (and audio bitrate string, when audio is configured) are not the token
`-i`: with a non-empty audio
identifier the argument list has exactly two `-i` tokens, the first followed by `pipe:0` and the
second by the audio URL, and contains the video mapping `-map 0:v:0` and the audio mapping
`-map 1:a:0`; with an empty identifier it has exactly one `-i` token, followed by `pipe:0`,
contains the video mapping and contains no audio mapping. -/
theorem ffArgs_inputs_and_mappings (env : Env) (_hy : YT_RTMP env ≠ "")
    (hp : X264_PRESET env ≠ "-i") (hv : VBITRATE env ≠ "-i") (he : YT_RTMP env ≠ "-i")
    (ha : DRIVE_AUDIO env ≠ "" → ABITRATE env ≠ "-i") :
    ( DRIVE_AUDIO env ≠ "" →
        (ffArgs env).count "-i" = 2 ∧
        argsAfter "-i" (ffArgs env) = [some "pipe:0", some (driveUrlPrefix ++ DRIVE_AUDIO env)] ∧
        hasPair "-map" "0:v:0" (ffArgs env) = true ∧
        hasPair "-map" "1:a:0" (ffArgs env) = true) ∧
    ( DRIVE_AUDIO env = "" →
        (ffArgs env).count "-i" = 1 ∧
        argsAfter "-i" (ffArgs env) = [some "pipe:0"] ∧
        hasPair "-map" "0:v:0" (ffArgs env) = true ∧
        hasPair "-map" "1:a:0" (ffArgs env) = false) := by
  have hf : (FPS env).toJSString ≠ "-i" := toJSString_ne _ _ 'i' [] rfl (by decide)
  constructor
  · intro h
    have hu : driveUrlPrefix ++ DRIVE_AUDIO env ≠ "-i" := driveUrl_ne _ _ (by decide)
    rw [ffArgs_of_audio env h]
    exact ⟨(audioList_dash_i _ _ _ _ _ _ hp hf hv (ha h) he hu).1,
      (audioList_dash_i _ _ _ _ _ _ hp hf hv (ha h) he hu).2,
      (audioList_maps _ _ _ _ _ _).1, (audioList_maps _ _ _ _ _ _).2⟩
  · intro h
    rw [ffArgs_of_no_audio env h]
    exact ⟨(videoList_dash_i _ _ _ _ hp hf hv he).1, (videoList_dash_i _ _ _ _ hp hf hv he).2,
      (videoList_maps _ _ _ _).1, (videoList_maps _ _ _ _).2⟩

/-- The amended C1 at the two scenario configurations. -/
theorem ffArgs_inputs_and_mappings_witness :
    ((ffArgs envWithAudio).count "-i" = 2 ∧
      argsAfter "-i" (ffArgs envWithAudio) =
        [some "pipe:0", some (driveUrlPrefix ++ DRIVE_AUDIO envWithAudio)] ∧
      hasPair "-map" "0:v:0" (ffArgs envWithAudio) = true ∧
      hasPair "-map" "1:a:0" (ffArgs envWithAudio) = true) ∧
    ((ffArgs envVideoOnly).count "-i" = 1 ∧
      argsAfter "-i" (ffArgs envVideoOnly) = [some "pipe:0"] ∧
      hasPair "-map" "0:v:0" (ffArgs envVideoOnly) = true ∧
      hasPair "-map" "1:a:0" (ffArgs envVideoOnly) = false) :=
  ⟨(ffArgs_inputs_and_mappings envWithAudio (by decide) (by decide) (by decide) (by decide)
      (fun _ => by decide)).1 (by decide),
   (ffArgs_inputs_and_mappings envVideoOnly (by decide) (by decide) (by decide) (by decide)
      (fun _ => by decide)).2 (by decide)⟩

/-- C2, as stated, fails in both directions: with audio `asset123` and the video bitrate string
`-an` the list holds `-an` next to the audio encoding, and without audio and with the preset
string `-ac` the list holds the audio-track directive `-ac`. -/
theorem ffArgs_injected_audio_directives :
    ( DRIVE_AUDIO envBitrateDashAn = "asset123" ∧ "-an" ∈ ffArgs envBitrateDashAn ∧
        hasPair "-c:a" "aac" (ffArgs envBitrateDashAn) = true) ∧
    ( DRIVE_AUDIO envPresetDashAc = "" ∧ "-ac" ∈ ffArgs envPresetDashAc) := by
  decide

/-- Where the four audio-track directives can stand in the list built without audio. -/
theorem videoList_token_mem (P F V E t : String) (ht : t ∈ ["-c:a", "-b:a", "-ar", "-ac"])
    (hF : t ≠ F) :
    t ∈ ["-re", "-f", "webm", "-i", "pipe:0",
         "-map", "0:v:0", "-c:v", "libx264", "-pix_fmt", "yuv420p", "-preset", P,
         "-r", F, "-b:v", V, "-an", "-f", "flv", E] ↔ t = P ∨ t = V ∨ t = E := by
  simp only [List.mem_cons, List.mem_singleton, List.not_mem_nil, or_false] at ht
  rcases ht with rfl | rfl | rfl | rfl <;> simp [hF]

/-- Where `-an` can stand in the list built with audio. -/
theorem audioList_an_mem (P F V A E U : String) (hF : "-an" ≠ F) (hU : "-an" ≠ U) :
    "-an" ∈ ["-re", "-f", "webm", "-i", "pipe:0", "-re", "-i", U,
         "-map", "0:v:0", "-c:v", "libx264", "-pix_fmt", "yuv420p", "-preset", P,
         "-r", F, "-b:v", V,
         "-map", "1:a:0", "-c:a", "aac", "-b:a", A, "-ar", "44100", "-ac", "2",
         "-f", "flv", E] ↔ "-an" = P ∨ "-an" = V ∨ "-an" = A ∨ "-an" = E := by
  simp [hF, hU]

/-- The directives of the list built without audio. -/
theorem videoList_directives (P F V E : String) :
    "-an" ∈ ["-re", "-f", "webm", "-i", "pipe:0",
         "-map", "0:v:0", "-c:v", "libx264", "-pix_fmt", "yuv420p", "-preset", P,
         "-r", F, "-b:v", V, "-an", "-f", "flv", E] ∧
    hasPair "-r" F
        ["-re", "-f", "webm", "-i", "pipe:0",
         "-map", "0:v:0", "-c:v", "libx264", "-pix_fmt", "yuv420p", "-preset", P,
         "-r", F, "-b:v", V, "-an", "-f", "flv", E] = true ∧
    hasPair "-c:a" "aac"
        ["-re", "-f", "webm", "-i", "pipe:0",
         "-map", "0:v:0", "-c:v", "libx264", "-pix_fmt", "yuv420p", "-preset", P,
         "-r", F, "-b:v", V, "-an", "-f", "flv", E] = false := by
  refine ⟨by simp, by simp [hasPair], by simp [hasPair]⟩

/-- The audio encoding of the list built with audio. -/
theorem audioList_directives (P F V A E U : String) :
    hasPair "-c:a" "aac"
        ["-re", "-f", "webm", "-i", "pipe:0", "-re", "-i", U,
         "-map", "0:v:0", "-c:v", "libx264", "-pix_fmt", "yuv420p", "-preset", P,
         "-r", F, "-b:v", V,
         "-map", "1:a:0", "-c:a", "aac", "-b:a", A, "-ar", "44100", "-ac", "2",
         "-f", "flv", E] = true ∧
    hasPair "-b:a" A
        ["-re", "-f", "webm", "-i", "pipe:0", "-re", "-i", U,
         "-map", "0:v:0", "-c:v", "libx264", "-pix_fmt", "yuv420p", "-preset", P,
         "-r", F, "-b:v", V,
         "-map", "1:a:0", "-c:a", "aac", "-b:a", A, "-ar", "44100", "-ac", "2",
         "-f", "flv", E] = true ∧
    hasPair "-ar" "44100"
        ["-re", "-f", "webm", "-i", "pipe:0", "-re", "-i", U,
         "-map", "0:v:0", "-c:v", "libx264", "-pix_fmt", "yuv420p", "-preset", P,
         "-r", F, "-b:v", V,
         "-map", "1:a:0", "-c:a", "aac", "-b:a", A, "-ar", "44100", "-ac", "2",
         "-f", "flv", E] = true ∧
    hasPair "-ac" "2"
        ["-re", "-f", "webm", "-i", "pipe:0", "-re", "-i", U,
         "-map", "0:v:0", "-c:v", "libx264", "-pix_fmt", "yuv420p", "-preset", P,
         "-r", F, "-b:v", V,
         "-map", "1:a:0", "-c:a", "aac", "-b:a", A, "-ar", "44100", "-ac", "2",
         "-f", "flv", E] = true := by
  refine ⟨by simp [hasPair], by simp [hasPair], by simp [hasPair], by simp [hasPair]⟩

/-- C2, amended: the environment strings are pushed as they are, so a directive token can also
stand where such a string is that token, and nowhere else. For every configuration without a
secondary audio identifier the list contains `-an`, contains `-r` immediately followed by the
rendering `String(f)` of the frame rate `f`, carries no audio encoding `-c:a aac`, and holds one
of `-c:a`, `-b:a`, `-ar`, `-ac` exactly when the preset, video bitrate or endpoint string is
that token. For every configuration with an identifier the list carries the audio encoding
(`-c:a aac`, `-b:a` and the audio bitrate, `-ar 44100`, `-ac 2`) and holds `-an` exactly when
the preset, video bitrate, audio bitrate or endpoint string is `-an`. So, these strings not
being such tokens, `-an` is present if and only if the identifier is empty, and the list never
has both the audio encoding and `-an`, nor neither. -/
theorem ffArgs_audio_section (env : Env) :
    ( DRIVE_AUDIO env = "" →
        "-an" ∈ ffArgs env ∧
        hasPair "-r" (FPS env).toJSString (ffArgs env) = true ∧
        hasPair "-c:a" "aac" (ffArgs env) = false ∧
        (∀ t ∈ ["-c:a", "-b:a", "-ar", "-ac"],
          t ∈ ffArgs env ↔ t = X264_PRESET env ∨ t = VBITRATE env ∨ t = YT_RTMP env)) ∧
    ( DRIVE_AUDIO env ≠ "" →
        hasPair "-c:a" "aac" (ffArgs env) = true ∧
        hasPair "-b:a" (ABITRATE env) (ffArgs env) = true ∧
        hasPair "-ar" "44100" (ffArgs env) = true ∧
        hasPair "-ac" "2" (ffArgs env) = true ∧
        ("-an" ∈ ffArgs env ↔
          "-an" = X264_PRESET env ∨ "-an" = VBITRATE env ∨ "-an" = ABITRATE env ∨
            "-an" = YT_RTMP env)) := by
  constructor
  · intro h
    rw [ffArgs_of_no_audio env h]
    refine ⟨(videoList_directives _ _ _ _).1, (videoList_directives _ _ _ _).2.1,
      (videoList_directives _ _ _ _).2.2, ?_⟩
    intro t ht
    have hF : t ≠ (FPS env).toJSString := by
      simp only [List.mem_cons, List.mem_singleton, List.not_mem_nil, or_false] at ht
      rcases ht with rfl | rfl | rfl | rfl
      · exact (toJSString_ne _ _ 'c' [':', 'a'] rfl (by decide)).symm
      · exact (toJSString_ne _ _ 'b' [':', 'a'] rfl (by decide)).symm
      · exact (toJSString_ne _ _ 'a' ['r'] rfl (by decide)).symm
      · exact (toJSString_ne _ _ 'a' ['c'] rfl (by decide)).symm
    exact videoList_token_mem _ _ _ _ t ht hF
  · intro h
    have hF : "-an" ≠ (FPS env).toJSString :=
      (toJSString_ne _ _ 'a' ['n'] rfl (by decide)).symm
    have hU : "-an" ≠ driveUrlPrefix ++ DRIVE_AUDIO env := (driveUrl_ne _ _ (by decide)).symm
    rw [ffArgs_of_audio env h]
    exact ⟨(audioList_directives _ _ _ _ _ _).1, (audioList_directives _ _ _ _ _ _).2.1,
      (audioList_directives _ _ _ _ _ _).2.2.1, (audioList_directives _ _ _ _ _ _).2.2.2,
      audioList_an_mem _ _ _ _ _ _ hF hU⟩

/-- The amended C2 at the two scenario configurations: at 30 frames per second the list holds
`-r 30`, no audio-track directive and `-an`; with audio `asset123` it holds the audio encoding
and no `-an`. -/
theorem ffArgs_audio_section_witness :
    ("-an" ∈ ffArgs envVideoOnly ∧
      hasPair "-r" "30" (ffArgs envVideoOnly) = true ∧
      hasPair "-c:a" "aac" (ffArgs envVideoOnly) = false ∧
      "-ac" ∉ ffArgs envVideoOnly) ∧
    (hasPair "-c:a" "aac" (ffArgs envWithAudio) = true ∧
      hasPair "-b:a" "160k" (ffArgs envWithAudio) = true ∧
      "-an" ∉ ffArgs envWithAudio) :=
  ⟨⟨((ffArgs_audio_section envVideoOnly).1 (by decide)).1,
    ((ffArgs_audio_section envVideoOnly).1 (by decide)).2.1,
    ((ffArgs_audio_section envVideoOnly).1 (by decide)).2.2.1,
    fun hmem => absurd ((((ffArgs_audio_section envVideoOnly).1 (by decide)).2.2.2 "-ac"
      (by decide)).mp hmem) (by decide)⟩,
   ⟨((ffArgs_audio_section envWithAudio).2 (by decide)).1,
    ((ffArgs_audio_section envWithAudio).2 (by decide)).2.1,
    fun hmem => absurd ((((ffArgs_audio_section envWithAudio).2 (by decide)).2.2.2.2).mp hmem)
      (by decide)⟩⟩

/-- C3: the secondary-audio resolution is a string construction. With the identifier unset or
empty, `audioUrl` is `null` and nothing is pushed for a second input, so the video mapping
follows `pipe:0` directly; with a non-empty identifier `s`, `audioUrl` is the Drive prefix
followed by `s`, it contains `s`, and it is the argument right after the second `-i`. -/
theorem audioUrl_resolution (env : Env) :
    ((env "DRIVE_AUDIO" = none ∨ env "DRIVE_AUDIO" = some "") →
        audioUrl env = none ∧ inputArgs1 env = [] ∧
        ffArgs env = inputArgs0 ++ videoArgs env ++ ["-an"] ++ outputArgs env) ∧
    (∀ s : String, env "DRIVE_AUDIO" = some s → s ≠ "" →
        audioUrl env = some ("https://drive.google.com/uc?export=download&id=" ++ s) ∧
        s.data <:+: ("https://drive.google.com/uc?export=download&id=" ++ s).data ∧
        (argsAfter "-i" (ffArgs env)).get? 1 =
          some (some ("https://drive.google.com/uc?export=download&id=" ++ s))) := by
  constructor
  · intro h
    have hd : DRIVE_AUDIO env = "" := by
      rcases h with h | h <;> simp [orDefault, DRIVE_AUDIO, h]
    refine ⟨audioUrl_of_eq env hd, by simp [inputArgs1, audioUrl_of_eq env hd], ?_⟩
    simp [ffArgs, inputArgs1, audioArgs, audioUrl_of_eq env hd]
  · intro s hs hne
    have hd : DRIVE_AUDIO env = s := by simp [orDefault, DRIVE_AUDIO, hs, hne]
    have hne2 : DRIVE_AUDIO env ≠ "" := by rw [hd]; exact hne
    refine ⟨?_, ?_, ?_⟩
    · rw [audioUrl_of_ne env hne2, hd]; rfl
    · rw [String.data_append]
      exact ⟨_, [], List.append_nil _⟩
    · rw [ffArgs_of_audio env hne2, hd]
      simp [argsAfter, driveUrlPrefix]

/-- C3 at the identifier `asset123`. -/
theorem audioUrl_resolution_witness :
    audioUrl envWithAudio = some "https://drive.google.com/uc?export=download&id=asset123" ∧
    "asset123".data <:+: "https://drive.google.com/uc?export=download&id=asset123".data ∧
    (argsAfter "-i" (ffArgs envWithAudio)).get? 1 =
      some (some "https://drive.google.com/uc?export=download&id=asset123") :=
  (audioUrl_resolution envWithAudio).2 "asset123" (by decide) (by decide)

/-! ## The lifecycle -/

theorem step_of_exited (s : State) (ev : Event) (h : s.exited.isSome = true) : step s ev = s := by
  simp [step, h]

theorem run_of_exited (evs : List Event) :
    ∀ s : State, s.exited.isSome = true → run s evs = s := by
  induction evs with
  | nil => intro s _; rfl
  | cons ev rest ih =>
    intro s h
    simp only [run, List.foldl_cons, step_of_exited s ev h]
    exact ih s h

theorem YT_RTMP_of_unset (env : Env) (h : env "YT_RTMP" = none ∨ env "YT_RTMP" = some "") :
    YT_RTMP env = "" := by
  rcases h with h | h <;> simp [YT_RTMP, orDefault, h]

theorem YT_RTMP_of_set (env : Env) (s : String) (h : env "YT_RTMP" = some s) (hs : s ≠ "") :
    YT_RTMP env = s := by
  simp [YT_RTMP, orDefault, h, hs]

theorem main_of_missing_endpoint (env : Env) (w : World) (h : YT_RTMP env = "") :
    main env w =
      { initial with
        trace := [Effect.consoleError missingEndpointMessage, Effect.processExit 1],
        exited := some 1 } := by
  simp [main, topLevel, h, exec]

/-- Statements without `process.exit` do not end in an exit. -/
theorem exec_not_exited (stmts : List Stmt) :
    (∀ st ∈ stmts, ∀ c, st ≠ Stmt.exit c) → ∀ c, (exec stmts).2 ≠ Outcome.exited c := by
  induction stmts with
  | nil => intro _ c; simp [exec]
  | cons st rest ih =>
    intro h c
    have hrest := ih (fun x hx => h x (List.mem_cons_of_mem _ hx)) c
    cases st with
    | call e throws => cases throws <;> simp [exec, hrest]
    | tryCall e throws => simp [exec, hrest]
    | exit status => exact absurd rfl (h _ (List.mem_cons_self _ _) status)

/-- With the endpoint set the module body runs to `app.listen`, and whatever follows is
appended to these two calls. -/
theorem main_of_endpoint (env : Env) (w : World) (h : YT_RTMP env ≠ "") :
    (main env w).exited = none ∧
      ∃ rest, (main env w).trace = [Effect.express, Effect.listen (PORT env)] ++ rest := by
  cases hl : w.listenFails with
  | true => exact ⟨by simp [main, topLevel, h, exec, hl, initial],
      [], by simp [main, topLevel, h, exec, hl, initial]⟩
  | false =>
    have ht : exec (topLevel env w) =
        ([Effect.express, Effect.listen (PORT env)], Outcome.completed) := by
      simp [topLevel, h, exec, hl]
    unfold main
    rw [ht]
    simp only
    have hne : ∀ status, (exec (listenCallback env w)).2 ≠ Outcome.exited status := by
      intro status
      apply exec_not_exited
      intro st hst c
      simp only [listenCallback, startStreaming, List.mem_cons, List.mem_singleton,
        List.not_mem_nil, or_false] at hst
      rcases hst with h | h | h | h | h | h | h | h | h | h | h | h | h | h <;>
        (rw [h]; exact Stmt.noConfusion)
    split
    · split <;> exact ⟨rfl, _, rfl⟩
    · exact ⟨rfl, _, rfl⟩
    · rename_i status hst
      exact absurd hst (hne status)

/-- C4: with `YT_RTMP` unset or empty the run consists of the error message and
`process.exit(1)` and nothing else, whatever happens afterwards: no HTTP server is started, no
browser launched, no capture acquired, no transcoder spawned. With a non-empty endpoint the
program does not exit at the check: it goes on to create the app and to call `app.listen`. -/
theorem missing_endpoint_fails_fast (env : Env) (w : World) (evs : List Event) :
    ((env "YT_RTMP" = none ∨ env "YT_RTMP" = some "") →
        (run (main env w) evs).trace =
          [Effect.consoleError missingEndpointMessage, Effect.processExit 1] ∧
        (run (main env w) evs).exited = some 1 ∧
        ∀ e ∈ (run (main env w) evs).trace, startsComponent e = false) ∧
    (∀ s : String, env "YT_RTMP" = some s → s ≠ "" →
        (main env w).exited = none ∧
        (main env w).trace.take 2 = [Effect.express, Effect.listen (PORT env)]) := by
  constructor
  · intro h
    have hm := main_of_missing_endpoint env w (YT_RTMP_of_unset env h)
    have hr : run (main env w) evs = main env w := run_of_exited evs _ (by rw [hm]; rfl)
    rw [hr, hm]
    refine ⟨rfl, rfl, ?_⟩
    intro e he
    simp only [List.mem_cons, List.mem_singleton, List.not_mem_nil, or_false] at he
    rcases he with rfl | rfl <;> rfl
  · intro s hs hne
    have hy : YT_RTMP env ≠ "" := by rw [YT_RTMP_of_set env s hs hne]; exact hne
    obtain ⟨h1, rest, h2⟩ := main_of_endpoint env w hy
    exact ⟨h1, by rw [h2]; rfl⟩

/-- C4 at the empty configuration and at the first scenario configuration. -/
theorem missing_endpoint_fails_fast_witness :
    ((run (main (fun _ => none) okWorld) [Event.sigint false false]).trace =
        [Effect.consoleError missingEndpointMessage, Effect.processExit 1] ∧
      (run (main (fun _ => none) okWorld) [Event.sigint false false]).exited = some 1 ∧
      ∀ e ∈ (run (main (fun _ => none) okWorld) [Event.sigint false false]).trace,
        startsComponent e = false) ∧
    ((main envVideoOnly okWorld).exited = none ∧
      (main envVideoOnly okWorld).trace.take 2 =
        [Effect.express, Effect.listen (PORT envVideoOnly)]) :=
  ⟨(missing_endpoint_fails_fast (fun _ => none) okWorld [Event.sigint false false]).1
      (Or.inl rfl),
   (missing_endpoint_fails_fast envVideoOnly okWorld []).2 "rtmp://host/app/key"
      (by decide) (by decide)⟩

theorem orZero_some (c : Int) : orZero (some c) = c := by
  by_cases h : c = 0 <;> simp [orZero, h]

theorem eraseIdx_concat_length {α : Type} (l : List α) (a : α) :
    (l ++ [a]).eraseIdx l.length = l := by
  induction l with
  | nil => rfl
  | cons x xs ih => simp [List.eraseIdx, ih]

/-- The `close` handler run on its own: the event, then the settling of its promise. -/
theorem run_close_path (s : State) (code : Option Int) (r : Bool)
    (hs : s.streaming = true) (he : s.exited = none) :
    run s [Event.ffClose code, Event.settle s.pending.length r] =
      { s with
        trace := s.trace ++ [Effect.consoleLog "[FFMPEG] exited with code",
          Effect.browserClose, Effect.processExit (orZero code)],
        exited := some (orZero code) } := by
  simp [run, step, hs, he, runStmts, exec, closeHandlerHead, resume, eraseIdx_concat_length]

/-- The interrupt handler run on its own: the event, then the settling of its promise. -/
theorem run_sigint_path (s : State) (d k r : Bool)
    (hs : s.streaming = true) (he : s.exited = none) :
    run s [Event.sigint d k, Event.settle s.pending.length r] =
      { s with
        trace := s.trace ++ [Effect.consoleLog "[SYS] Shutting down...",
          Effect.streamDestroy, Effect.ffKill "SIGINT", Effect.browserClose,
          Effect.serverClose, Effect.processExit 0],
        exited := some 0 } := by
  simp [run, step, hs, he, runStmts, exec, sigintHandlerHead, resume, eraseIdx_concat_length]

/-- A trigger handled while streaming suspends its handler after the calls of its head. -/
theorem step_trigger (s : State) (ev : Event) (hs : s.streaming = true)
    (he : s.exited = none) (ht : isTrigger ev = true) :
    step s ev =
      { s with trace := s.trace ++ triggerCalls [ev],
               pending := s.pending ++ triggerPending [ev] } := by
  cases ev with
  | ffClose code =>
    simp [step, hs, he, runStmts, exec, closeHandlerHead, triggerCalls, triggerPending]
  | sigint d k =>
    simp [step, hs, he, runStmts, exec, sigintHandlerHead, triggerCalls, triggerPending]
  | settle i r => simp [isTrigger] at ht
  | settleThrowing i r => simp [isTrigger] at ht

theorem triggerCalls_cons (ev : Event) (evs : List Event) :
    triggerCalls (ev :: evs) = triggerCalls [ev] ++ triggerCalls evs := by
  cases ev <;> simp [triggerCalls]

theorem triggerPending_cons (ev : Event) (evs : List Event) :
    triggerPending (ev :: evs) = triggerPending [ev] ++ triggerPending evs := by
  cases ev <;> simp [triggerPending]

/-- Triggers alone, while streaming: every handler runs to its `await` and none exits. -/
theorem run_triggers (evs : List Event) :
    ∀ s : State, s.streaming = true → s.exited = none →
      (∀ ev ∈ evs, isTrigger ev = true) →
      run s evs =
        { s with trace := s.trace ++ triggerCalls evs,
                 pending := s.pending ++ triggerPending evs } := by
  induction evs with
  | nil => intro s _ _ _; simp [run, triggerCalls, triggerPending]
  | cons ev rest ih =>
    intro s hs he ht
    have h1 := step_trigger s ev hs he (ht ev (List.mem_cons_self _ _))
    have h2 := ih (step s ev) (by rw [h1]; exact hs) (by rw [h1]; exact he)
      (fun x hx => ht x (List.mem_cons_of_mem _ hx))
    simp only [run, List.foldl_cons] at h2 ⊢
    rw [h2, h1, triggerCalls_cons ev rest, triggerPending_cons ev rest]
    simp [List.append_assoc]

theorem getElem?_middle {α : Type} (pre post : List α) (p : α) :
    (pre ++ p :: post)[pre.length]? = some p := by
  induction pre with
  | nil => simp
  | cons x xs ih => simpa using ih

theorem eraseIdx_middle {α : Type} (pre post : List α) (p : α) :
    (pre ++ p :: post).eraseIdx pre.length = pre ++ post := by
  induction pre with
  | nil => rfl
  | cons x xs ih => simpa [List.eraseIdx] using ih

/-- The handler at position `pre.length` of the suspended handlers is resumed. -/
theorem step_settle_at (s : State) (pre post : List Pending) (p : Pending) (r : Bool)
    (he : s.exited = none) (hp : s.pending = pre ++ p :: post) :
    step s (Event.settle pre.length r) =
        runStmts { s with pending := pre ++ post } (resume false p) none ∧
    step s (Event.settleThrowing pre.length r) =
        runStmts { s with pending := pre ++ post } (resume true p) none := by
  have hget : s.pending[pre.length]? = some p := by
    rw [hp]; exact getElem?_middle pre post p
  have herase : s.pending.eraseIdx pre.length = pre ++ post := by
    rw [hp]; exact eraseIdx_middle pre post p
  constructor <;> simp [step, he, hget, herase]

/-- C5, as stated, fails: after a successful start-up the transcoder closes with code 1, an
interrupt arrives while the `close` handler waits for `browser.close()`, and the promise of the
interrupt handler settles first; the program exits with status 0, not 1. -/
theorem interrupt_overrides_transcoder_status :
    (run (main envVideoOnly okWorld)
        [Event.ffClose (some 1), Event.sigint false false, Event.settle 1 false]).exited
      = some 0 := by
  decide

/-- C5, amended: when the transcoder closes during streaming with integer exit code `c`, the
`close` handler calls `browser.close()` and waits; the program does not exit before that
promise settles, whatever triggers arrive meanwhile. When it settles, fulfilled or rejected,
before the promise of any other suspended handler, the program calls `process.exit(c)`: the
exit status is `c`, and the close attempt comes before the exit. -/
theorem transcoder_exit_mirrors_code (s : State) (c : Int) (r : Bool) (mids : List Event)
    (hs : s.streaming = true) (he : s.exited = none)
    (hm : ∀ ev ∈ mids, isTrigger ev = true) :
    (run s (Event.ffClose (some c) :: mids)).exited = none ∧
    (run s (Event.ffClose (some c) :: mids ++ [Event.settle s.pending.length r])).exited
      = some c ∧
    (run s (Event.ffClose (some c) :: mids ++ [Event.settle s.pending.length r])).trace =
      s.trace ++ [Effect.consoleLog "[FFMPEG] exited with code", Effect.browserClose] ++
        triggerCalls mids ++ [Effect.processExit c] := by
  have hall : ∀ ev ∈ Event.ffClose (some c) :: mids, isTrigger ev = true := by
    intro ev hev
    rcases List.mem_cons.mp hev with h | h
    · rw [h]; rfl
    · exact hm ev h
  have h1 := run_triggers (Event.ffClose (some c) :: mids) s hs he hall
  have hsplit : run s (Event.ffClose (some c) :: mids ++ [Event.settle s.pending.length r]) =
      step (run s (Event.ffClose (some c) :: mids)) (Event.settle s.pending.length r) := by
    simp [run, List.foldl_append]
  have h2 := (step_settle_at (run s (Event.ffClose (some c) :: mids)) s.pending
    (triggerPending mids) (Pending.closeHandler (some c)) r (by rw [h1]; exact he)
    (by rw [h1]; rfl)).1
  rw [hsplit, h2, h1]
  refine ⟨he, ?_, ?_⟩
  · simp [runStmts, resume, exec, orZero_some]
  · simp [runStmts, resume, exec, orZero_some, triggerCalls, closeHandlerHead]

/-- The amended C5 at exit code 1 after a successful start-up: an interrupt arrives during the
wait, the close attempt of the `close` handler is rejected and settles first. -/
theorem transcoder_exit_mirrors_code_witness :
    (run (main envVideoOnly okWorld)
        [Event.ffClose (some 1), Event.sigint false false]).exited = none ∧
    (run (main envVideoOnly okWorld)
        [Event.ffClose (some 1), Event.sigint false false, Event.settle 0 true]).exited
      = some 1 ∧
    (run (main envVideoOnly okWorld)
        [Event.ffClose (some 1), Event.sigint false false, Event.settle 0 true]).trace =
      (main envVideoOnly okWorld).trace ++
        [Effect.consoleLog "[FFMPEG] exited with code", Effect.browserClose] ++
        triggerCalls [Event.sigint false false] ++ [Effect.processExit 1] :=
  transcoder_exit_mirrors_code (main envVideoOnly okWorld) 1 true [Event.sigint false false]
    (by decide) (by decide) (by decide)

/-- C6, as stated, fails. After a successful start-up an interrupt is followed by the `close`
event of the transcoder that line 125 asked to terminate; when the promise of the `close`
handler settles first, the program exits with the transcoder's status 255 and `server.close()`
is never called. And when `server.close()` throws, `process.exit(0)` is not reached: the
rejected promise of the handler is left to the runtime, which ends the process with status 1. -/
theorem interrupt_teardown_cut_short :
    ((run (main envVideoOnly okWorld)
        [Event.sigint false false, Event.ffClose (some 255), Event.settle 1 false]).exited
      = some 255 ∧
     Effect.serverClose ∉ (run (main envVideoOnly okWorld)
        [Event.sigint false false, Event.ffClose (some 255), Event.settle 1 false]).trace) ∧
    (exitStatus (run (main envVideoOnly okWorld)
        [Event.sigint false false, Event.settleThrowing 0 false]) = some 1 ∧
     Effect.processExit 0 ∉ (run (main envVideoOnly okWorld)
        [Event.sigint false false, Event.settleThrowing 0 false]).trace) := by
  decide

/-- C6, amended: when an interrupt arrives during streaming, whether or not `stream.destroy()`
throws, `ff.kill("SIGINT")` throws or `browser.close()` rejects, the handler calls
`stream.destroy()`, `ff.kill("SIGINT")` and `browser.close()` in this order and waits; the
program does not exit before a promise settles. When the promise of this handler settles before
that of any other suspended handler, the handler goes on to call `server.close()`, so that all
four steps are attempted in order, and, `server.close()` returning, calls `process.exit(0)`. -/
theorem interrupt_teardown_exhaustive (s : State) (d k r : Bool) (mids : List Event)
    (hs : s.streaming = true) (he : s.exited = none)
    (hm : ∀ ev ∈ mids, isTrigger ev = true) :
    (run s (Event.sigint d k :: mids)).exited = none ∧
    (run s (Event.sigint d k :: mids ++ [Event.settle s.pending.length r])).trace =
      s.trace ++ [Effect.consoleLog "[SYS] Shutting down...", Effect.streamDestroy,
          Effect.ffKill "SIGINT", Effect.browserClose] ++
        triggerCalls mids ++ [Effect.serverClose, Effect.processExit 0] ∧
    (run s (Event.sigint d k :: mids ++ [Event.settle s.pending.length r])).exited = some 0 ∧
    (run s (Event.sigint d k :: mids ++ [Event.settleThrowing s.pending.length r])).trace =
      s.trace ++ [Effect.consoleLog "[SYS] Shutting down...", Effect.streamDestroy,
          Effect.ffKill "SIGINT", Effect.browserClose] ++
        triggerCalls mids ++ [Effect.serverClose] := by
  have hall : ∀ ev ∈ Event.sigint d k :: mids, isTrigger ev = true := by
    intro ev hev
    rcases List.mem_cons.mp hev with h | h
    · rw [h]; rfl
    · exact hm ev h
  have h1 := run_triggers (Event.sigint d k :: mids) s hs he hall
  have hsplit : ∀ ev : Event, run s (Event.sigint d k :: mids ++ [ev]) =
      step (run s (Event.sigint d k :: mids)) ev := by
    intro ev
    simp [run, List.foldl_append]
  have h2 := step_settle_at (run s (Event.sigint d k :: mids)) s.pending
    (triggerPending mids) Pending.sigintHandler r (by rw [h1]; exact he) (by rw [h1]; rfl)
  rw [hsplit, hsplit, h2.1, h2.2, h1]
  refine ⟨he, ?_, ?_, ?_⟩
  · simp [runStmts, resume, exec, triggerCalls, sigintHandlerHead]
  · simp [runStmts, resume, exec]
  · simp [runStmts, resume, exec, triggerCalls, sigintHandlerHead]

/-- The amended C6 after a successful start-up with all three guarded steps failing: the `close`
event of the transcoder arrives during the wait and the promise of the interrupt handler
settles first. -/
theorem interrupt_teardown_exhaustive_witness :
    (run (main envVideoOnly okWorld)
        [Event.sigint true true, Event.ffClose (some 255)]).exited = none ∧
    (run (main envVideoOnly okWorld)
        [Event.sigint true true, Event.ffClose (some 255), Event.settle 0 true]).trace =
      (main envVideoOnly okWorld).trace ++
        [Effect.consoleLog "[SYS] Shutting down...", Effect.streamDestroy,
          Effect.ffKill "SIGINT", Effect.browserClose] ++
        triggerCalls [Event.ffClose (some 255)] ++
        [Effect.serverClose, Effect.processExit 0] ∧
    (run (main envVideoOnly okWorld)
        [Event.sigint true true, Event.ffClose (some 255), Event.settle 0 true]).exited
      = some 0 ∧
    (run (main envVideoOnly okWorld)
        [Event.sigint true true, Event.ffClose (some 255), Event.settleThrowing 0 true]).trace =
      (main envVideoOnly okWorld).trace ++
        [Effect.consoleLog "[SYS] Shutting down...", Effect.streamDestroy,
          Effect.ffKill "SIGINT", Effect.browserClose] ++
        triggerCalls [Event.ffClose (some 255)] ++ [Effect.serverClose] :=
  interrupt_teardown_exhaustive (main envVideoOnly okWorld) true true true
    [Event.ffClose (some 255)] (by decide) (by decide) (by decide)

/-- C10: the `close` handler exits with `code || 0`. A `null` code gives status 0, as does the
code 0, and the status is non-zero exactly when the transcoder reported a non-zero integer. -/
theorem close_handler_exit_status (s : State) (code : Option Int) (r : Bool)
    (hs : s.streaming = true) (he : s.exited = none) :
    (run s [Event.ffClose code, Event.settle s.pending.length r]).exited
      = some (orZero code) ∧
    orZero none = 0 ∧ orZero (some 0) = 0 ∧
    (orZero code ≠ 0 ↔ ∃ c : Int, code = some c ∧ c ≠ 0) := by
  rw [run_close_path s code r hs he]
  refine ⟨rfl, rfl, rfl, ?_⟩
  cases code with
  | none => simp [orZero]
  | some c => rw [orZero_some]; simp

/-- C10 at a `null` exit code, after a start-up in which every call succeeded. -/
theorem close_handler_exit_status_witness :
    (run (main envVideoOnly okWorld) [Event.ffClose none, Event.settle 0 false]).exited
      = some 0 :=
  (close_handler_exit_status (main envVideoOnly okWorld) none false (by decide)
    (by decide)).1

/-! ## Repeated triggers, failed start-up, and the two teardown paths -/

/-- Execution only makes calls that the statements contain. -/
theorem exec_trace_mem (stmts : List Stmt) :
    ∀ e ∈ (exec stmts).1, e ∈ stmts.map Stmt.effect := by
  induction stmts with
  | nil => intro e he; simp [exec] at he
  | cons st rest ih =>
    intro e he
    cases st with
    | call e0 throws =>
      cases throws with
      | true =>
        have : e = e0 := by simpa [exec] using he
        simp [this, Stmt.effect]
      | false =>
        have : e = e0 ∨ e ∈ (exec rest).1 := by simpa [exec] using he
        rcases this with h | h
        · simp [h, Stmt.effect]
        · exact List.mem_cons_of_mem _ (ih e h)
    | tryCall e0 throws =>
      have : e = e0 ∨ e ∈ (exec rest).1 := by simpa [exec] using he
      rcases this with h | h
      · simp [h, Stmt.effect]
      · exact List.mem_cons_of_mem _ (ih e h)
    | exit status =>
      have : e = Effect.processExit status := by simpa [exec] using he
      simp [this, Stmt.effect]

/-- The calls of a run up to the end of start-up are among those of the module body and of
the `listen` callback. -/
theorem main_trace_mem (env : Env) (w : World) :
    ∀ e ∈ (main env w).trace,
      e ∈ (topLevel env w).map Stmt.effect ∨ e ∈ (listenCallback env w).map Stmt.effect := by
  intro e he
  unfold main at he
  split at he
  · exact Or.inl (exec_trace_mem _ e he)
  · exact Or.inl (exec_trace_mem _ e he)
  · split at he
    · split at he <;>
        (rcases List.mem_append.mp he with h | h
         · exact Or.inl (exec_trace_mem _ e h)
         · exact Or.inr (exec_trace_mem _ e h))
    · rcases List.mem_append.mp he with h | h
      · exact Or.inl (exec_trace_mem _ e h)
      · exact Or.inr (exec_trace_mem _ e h)
    · rcases List.mem_append.mp he with h | h
      · exact Or.inl (exec_trace_mem _ e h)
      · exact Or.inr (exec_trace_mem _ e h)

/-- Start-up never calls `browser.close()`. -/
theorem main_no_browserClose (env : Env) (w : World) :
    Effect.browserClose ∉ (main env w).trace := by
  intro h
  rcases main_trace_mem env w _ h with h | h
  · simp only [topLevel] at h
    split at h <;> simp [Stmt.effect] at h
  · simp [listenCallback, startStreaming, Stmt.effect] at h

theorem count_runStmts_resume (s : State) (b : Bool) (p : Pending) :
    (runStmts s (resume b p) none).trace.count Effect.browserClose
      = s.trace.count Effect.browserClose := by
  cases p <;> cases b <;> simp [runStmts, resume, exec, List.count_cons]

/-- One event adds at most one `browser.close()` call, and only when it is a trigger. -/
theorem count_step_le (s : State) (ev : Event) :
    (step s ev).trace.count Effect.browserClose
      ≤ s.trace.count Effect.browserClose + triggers [ev] := by
  unfold step
  split
  · exact Nat.le_add_right _ _
  · cases ev with
    | ffClose code =>
      by_cases hs : s.streaming = true <;>
        simp [hs, runStmts, exec, closeHandlerHead, triggers, List.count_cons]
    | sigint d k =>
      by_cases hs : s.streaming = true
      · simp [hs, runStmts, exec, sigintHandlerHead, triggers, List.count_cons]
      · by_cases hf : s.fatal.isSome = true <;> simp [hs, hf]
    | settle i r =>
      simp only [triggers, List.filter, List.length, Nat.add_zero]
      split
      · rw [count_runStmts_resume]
      · exact Nat.le_refl _
    | settleThrowing i r =>
      simp only [triggers, List.filter, List.length, Nat.add_zero]
      split
      · rw [count_runStmts_resume]
      · exact Nat.le_refl _

theorem triggers_cons (ev : Event) (evs : List Event) :
    triggers (ev :: evs) = triggers [ev] + triggers evs := by
  simp only [triggers, List.filter]
  split <;> simp [Nat.add_comm]

theorem count_run_le (evs : List Event) :
    ∀ s : State, (run s evs).trace.count Effect.browserClose
      ≤ s.trace.count Effect.browserClose + triggers evs := by
  induction evs with
  | nil => intro s; exact Nat.le_add_right _ _
  | cons ev rest ih =>
    intro s
    have h1 := ih (step s ev)
    have h2 := count_step_le s ev
    have h3 := triggers_cons ev rest
    simp only [run, List.foldl_cons] at h1 ⊢
    omega

/-- C7, as stated, fails: after a successful start-up an interrupt followed by the `close`
event of the transcoder (which the interrupt handler has just asked to terminate) makes two
`browser.close()` calls before any exit; so do two interrupts in a row. -/
theorem browser_closed_twice :
    (run (main envVideoOnly okWorld)
        [Event.sigint false false, Event.ffClose (some 255)]).trace.count Effect.browserClose = 2 ∧
    (run (main envVideoOnly okWorld)
        [Event.sigint false false, Event.ffClose (some 255)]).exited = none ∧
    (run (main envVideoOnly okWorld)
        [Event.sigint false false, Event.sigint false false]).trace.count Effect.browserClose
      = 2 := by
  decide

/-- C7, amended: there is no once-only guard. In every state reachable from start-up the number
of `browser.close()` calls is at most the number of shutdown triggers received; every trigger
handled while streaming and before the exit makes exactly one more call; and once
`process.exit` has been called no later event causes any action. -/
theorem browser_close_once_per_trigger (env : Env) (w : World) (evs : List Event) :
    (run (main env w) evs).trace.count Effect.browserClose ≤ triggers evs ∧
    (∀ (s : State) (code : Option Int), s.streaming = true → s.exited = none →
        (step s (Event.ffClose code)).trace.count Effect.browserClose
          = s.trace.count Effect.browserClose + 1) ∧
    (∀ (s : State) (d k : Bool), s.streaming = true → s.exited = none →
        (step s (Event.sigint d k)).trace.count Effect.browserClose
          = s.trace.count Effect.browserClose + 1) ∧
    (∀ (s : State) (ev : Event), s.exited.isSome = true → step s ev = s) := by
  refine ⟨?_, ?_, ?_, step_of_exited⟩
  · have h := count_run_le evs (main env w)
    have h0 : (main env w).trace.count Effect.browserClose = 0 :=
      List.count_eq_zero.mpr (main_no_browserClose env w)
    omega
  · intro s code hs he
    simp [step, hs, he, runStmts, exec, closeHandlerHead, List.count_cons]
  · intro s d k hs he
    simp [step, hs, he, runStmts, exec, sigintHandlerHead, List.count_cons]

/-- The amended C7 on a run with one interrupt, and on a second interrupt after it. -/
theorem browser_close_once_per_trigger_witness :
    (run (main envVideoOnly okWorld) [Event.sigint false false]).trace.count Effect.browserClose
      ≤ triggers [Event.sigint false false] ∧
    (step (run (main envVideoOnly okWorld) [Event.sigint false false])
        (Event.sigint false false)).trace.count Effect.browserClose
      = (run (main envVideoOnly okWorld) [Event.sigint false false]).trace.count
          Effect.browserClose + 1 :=
  ⟨(browser_close_once_per_trigger envVideoOnly okWorld [Event.sigint false false]).1,
   (browser_close_once_per_trigger envVideoOnly okWorld []).2.2.1
      (run (main envVideoOnly okWorld) [Event.sigint false false]) false false
      (by decide) (by decide)⟩

/-- Once the runtime has ended the process on an unhandled failure nothing happens any more. -/
theorem run_of_fatal (evs : List Event) :
    ∀ s : State, s.streaming = false → s.pending = [] → s.fatal.isSome = true →
      run s evs = s := by
  induction evs with
  | nil => intro s _ _ _; rfl
  | cons ev rest ih =>
    intro s hs hp hf
    have hstep : step s ev = s := by
      unfold step
      split
      · rfl
      · cases ev <;> simp [hs, hp, hf]
    simp only [run, List.foldl_cons, hstep]
    exact ih s hs hp hf

/-- A start-up step failing after the launch: the failure is left to the runtime. -/
theorem main_of_failed_startup (env : Env) (w : World) (hy : YT_RTMP env ≠ "")
    (hl : w.listenFails = false) (hb : w.launchFails = false)
    (hf : w.newPageFails = true ∨ w.gotoFails = true ∨ w.waitFails = true ∨
      w.getStreamFails = true ∨ w.spawnThrows = true ∨ w.spawnFails = true) :
    (main env w).streaming = false ∧ (main env w).fatal.isSome = true ∧
      (main env w).pending = [] ∧ (main env w).exited = none ∧
      Effect.launch (launchArgs env) ∈ (main env w).trace := by
  obtain ⟨l, b, n, g, t, c, x, p⟩ := w
  simp only at hl hb hf
  subst hl hb
  cases n <;> cases g <;> cases t <;> cases c <;> cases x <;> cases p <;>
    simp [main, topLevel, listenCallback, startStreaming, exec, initial, hy] at hf ⊢

/-- C8, as stated, fails: when loading the page fails after a successful launch, the run holds
the launch and no `browser.close()` call: the last call of the program is `page.goto`, no
teardown code runs, and the rejected promise of `startStreaming` is left to the runtime. -/
theorem goto_failure_leaves_browser_open :
    Effect.launch (launchArgs envVideoOnly) ∈ (main envVideoOnly gotoFailsWorld).trace ∧
    Effect.browserClose ∉ (main envVideoOnly gotoFailsWorld).trace ∧
    (main envVideoOnly gotoFailsWorld).trace.getLast? =
      some (Effect.goto "http://localhost:3000/index.html") ∧
    (main envVideoOnly gotoFailsWorld).fatal = some Fatal.unhandledRejection := by
  decide

/-- C8, amended: a failure during start-up is fatal but not cleaned up. In every run in which a
step of `startStreaming` fails after the browser has been launched (new page, navigation,
settle wait, capture, or the spawn, whether it throws or the child cannot be started), the
program makes no `browser.close()` call then or later, prints no error of its own and calls
`process.exit` nowhere; the failure is unhandled, and the runtime reports that one failure and
ends the process with status 1. -/
theorem failed_startup_skips_teardown (env : Env) (w : World) (evs : List Event)
    (hy : YT_RTMP env ≠ "") (hl : w.listenFails = false) (hb : w.launchFails = false)
    (hf : w.newPageFails = true ∨ w.gotoFails = true ∨ w.waitFails = true ∨
      w.getStreamFails = true ∨ w.spawnThrows = true ∨ w.spawnFails = true) :
    Effect.launch (launchArgs env) ∈ (run (main env w) evs).trace ∧
    Effect.browserClose ∉ (run (main env w) evs).trace ∧
    (∀ msg, Effect.consoleError msg ∉ (run (main env w) evs).trace) ∧
    (∀ status, Effect.processExit status ∉ (run (main env w) evs).trace) ∧
    (run (main env w) evs).fatal.isSome = true ∧
    exitStatus (run (main env w) evs) = some 1 := by
  obtain ⟨h1, h2, h3, h4, h5⟩ := main_of_failed_startup env w hy hl hb hf
  rw [run_of_fatal evs (main env w) h1 h3 h2]
  refine ⟨h5, main_no_browserClose env w, ?_, ?_, h2, by simp [exitStatus, h4, h2]⟩
  · intro msg h
    rcases main_trace_mem env w _ h with h | h
    · simp [topLevel, hy, Stmt.effect] at h
    · simp [listenCallback, startStreaming, Stmt.effect] at h
  · intro status h
    rcases main_trace_mem env w _ h with h | h
    · simp [topLevel, hy, Stmt.effect] at h
    · simp [listenCallback, startStreaming, Stmt.effect] at h

/-- The amended C8 when `ffmpeg` cannot be started: lines 112-122 have run, the unheard `error`
event of the child ends the process, and an interrupt sent afterwards changes nothing. -/
theorem failed_startup_skips_teardown_witness :
    Effect.launch (launchArgs envWithAudio) ∈
      (run (main envWithAudio spawnFailsWorld) [Event.sigint false false]).trace ∧
    Effect.browserClose ∉
      (run (main envWithAudio spawnFailsWorld) [Event.sigint false false]).trace ∧
    (∀ msg, Effect.consoleError msg ∉
      (run (main envWithAudio spawnFailsWorld) [Event.sigint false false]).trace) ∧
    (∀ status, Effect.processExit status ∉
      (run (main envWithAudio spawnFailsWorld) [Event.sigint false false]).trace) ∧
    (run (main envWithAudio spawnFailsWorld) [Event.sigint false false]).fatal.isSome = true ∧
    exitStatus (run (main envWithAudio spawnFailsWorld) [Event.sigint false false]) = some 1 :=
  failed_startup_skips_teardown envWithAudio spawnFailsWorld [Event.sigint false false]
    (by decide) (by decide) (by decide) (by decide)

/-- C9, as stated, fails: after a successful start-up the teardown calls made when the
transcoder exits are `browser.close()` alone, while those made on an interrupt, the termination
request left out, are `stream.destroy()`, `browser.close()`, `server.close()`. -/
theorem teardown_paths_differ :
    teardownActions
        (run (main envVideoOnly okWorld) [Event.ffClose (some 1), Event.settle 0 false]).trace
      = [Effect.browserClose] ∧
    withoutKill (teardownActions
        (run (main envVideoOnly okWorld) [Event.sigint false false, Event.settle 0 false]).trace)
      = [Effect.streamDestroy, Effect.browserClose, Effect.serverClose] ∧
    teardownActions
        (run (main envVideoOnly okWorld) [Event.ffClose (some 1), Event.settle 0 false]).trace
      ≠ withoutKill (teardownActions
        (run (main envVideoOnly okWorld)
          [Event.sigint false false, Event.settle 0 false]).trace) := by
  decide

/-- C9, amended: the two triggers run different teardown paths that share the browser close.
When the transcoder exits during streaming the handler closes the browser and exits with
`code || 0`, without stopping the capture stream or the HTTP server; on an interrupt the
handler stops the capture stream, asks the transcoder to terminate, closes the browser, stops
the HTTP server and exits with 0. -/
theorem teardown_paths (s : State) (code : Option Int) (d k r r2 : Bool)
    (hs : s.streaming = true) (he : s.exited = none) :
    teardownActions (run s [Event.ffClose code, Event.settle s.pending.length r]).trace
      = teardownActions s.trace ++ [Effect.browserClose] ∧
    teardownActions (run s [Event.sigint d k, Event.settle s.pending.length r2]).trace
      = teardownActions s.trace ++
          [Effect.streamDestroy, Effect.ffKill "SIGINT", Effect.browserClose,
            Effect.serverClose] ∧
    (run s [Event.ffClose code, Event.settle s.pending.length r]).exited
      = some (orZero code) ∧
    (run s [Event.sigint d k, Event.settle s.pending.length r2]).exited = some 0 := by
  rw [run_close_path s code r hs he, run_sigint_path s d k r2 hs he]
  simp [teardownActions, List.filter_append]

/-- The amended C9 after a start-up in which every call succeeded. -/
theorem teardown_paths_witness :
    teardownActions
        (run (main envVideoOnly okWorld) [Event.ffClose (some 1), Event.settle 0 false]).trace
      = teardownActions (main envVideoOnly okWorld).trace ++ [Effect.browserClose] ∧
    teardownActions
        (run (main envVideoOnly okWorld) [Event.sigint false false, Event.settle 0 false]).trace
      = teardownActions (main envVideoOnly okWorld).trace ++
          [Effect.streamDestroy, Effect.ffKill "SIGINT", Effect.browserClose,
            Effect.serverClose] ∧
    (run (main envVideoOnly okWorld) [Event.ffClose (some 1), Event.settle 0 false]).exited
      = some (orZero (some 1)) ∧
    (run (main envVideoOnly okWorld) [Event.sigint false false, Event.settle 0 false]).exited
      = some 0 :=
  teardown_paths (main envVideoOnly okWorld) (some 1) false false false false (by decide)
    (by decide)

end Server
